import Mathlib

/-!
Verification development for the `mpesa-backend` payment server
(`src/server.js`).  The server keeps two in-memory JavaScript `Map`s
(`paymentStatus` for M-Pesa, `paypalPayments` for PayPal), registers a
record at initiation time, applies provider callbacks/webhooks, and
exposes polling endpoints.  Each route handler is embedded below as a
pure Lean function over an explicit server state; external network
calls (the PayPal capture and order-details requests) are modelled as
oracle parameters together with a count of how many outbound calls the
handler performs.
-/

namespace MpesaBackend

/-- A dynamic JavaScript value as it appears in callback metadata items
(`item.Value` may be a number or a string; the handler copies it into
record fields without inspecting its type). -/
inductive JVal where
  | num (n : Int)
  | str (s : String)
  deriving DecidableEq, Repr

/-- Lookup in an association list keyed by strings, first match wins —
the model of JavaScript `Map.get`. -/
def lookupEntries {β : Type} (k : String) : List (String × β) → Option β
  | [] => none
  | (k', v) :: rest => if k' = k then some v else lookupEntries k rest

/-- In-place update of the first matching key, or append — the model of
JavaScript `Map.set` (which keeps insertion order on overwrite). -/
def setEntries {β : Type} (k : String) (v : β) : List (String × β) → List (String × β)
  | [] => [(k, v)]
  | (k', v') :: rest => if k' = k then (k, v) :: rest else (k', v') :: setEntries k v rest

/-- A JavaScript `Map` with string keys, modelled as an association
list in insertion order. -/
structure JsMap (β : Type) where
  entries : List (String × β)
  deriving DecidableEq, Repr

def JsMap.get? {β : Type} (m : JsMap β) (k : String) : Option β :=
  lookupEntries k m.entries

def JsMap.set {β : Type} (m : JsMap β) (k : String) (v : β) : JsMap β :=
  ⟨setEntries k v m.entries⟩

/-- `Map.has`. -/
def JsMap.hasKey {β : Type} (m : JsMap β) (k : String) : Bool :=
  (m.get? k).isSome

def JsMap.empty {β : Type} : JsMap β := ⟨[]⟩

/-- `Array.from(map.values())` — values in insertion order. -/
def JsMap.values {β : Type} (m : JsMap β) : List β :=
  m.entries.map Prod.snd

/-- JavaScript `x || d` on a possibly-absent string (both `undefined`
and the empty string are falsy). -/
def jsOr (s : Option String) (d : String) : String :=
  match s with
  | some v => if v = "" then d else v
  | none => d

/-- The fields of `stkResponse.data` that the server reads
(`CheckoutRequestID`, `MerchantRequestID`); stored whole in the record
as `mpesaResponse`. -/
structure StkResponseData where
  checkoutRequestID : Option String
  merchantRequestID : Option String
  deriving DecidableEq, Repr

/-- One entry of the `paymentStatus` map: the object built in
`/initiate-payment` plus every field the callback handler may add. -/
structure MpesaPayment where
  checkoutRequestID : String
  merchantRequestID : Option String
  phone : JVal
  amount : JVal
  accountReference : String
  eventId : String
  userId : String
  status : String
  initiatedAt : Nat
  mpesaResponse : StkResponseData
  completedAt : Option Nat := none
  mpesaReceiptNumber : Option JVal := none
  transactionDate : Option JVal := none
  error : Option String := none
  deriving DecidableEq, Repr

/-- The PayPal order object as the server uses it (only `.id` and
`.status` are read). -/
structure PaypalOrder where
  id : String
  status : String
  deriving DecidableEq, Repr

/-- One entry of the `paypalPayments` map: the object built in
`/create-paypal-order` plus every field later handlers may add. -/
structure PaypalPayment where
  orderId : String
  transactionId : String
  amount : String
  usdAmount : String
  currency : String := "USD"
  eventId : String
  userId : String
  username : String
  email : String
  selectedTeam : Option String := none
  status : String
  created_at : Nat
  paypalResponse : PaypalOrder
  approved_at : Option Nat := none
  captured_at : Option Nat := none
  failed_at : Option Nat := none
  captureId : Option String := none
  captureResponse : Option PaypalOrder := none
  error : Option String := none
  deriving DecidableEq, Repr

/-- The two in-memory stores of `server.js`. -/
structure ServerState where
  paymentStatus : JsMap MpesaPayment
  paypalPayments : JsMap PaypalPayment
  deriving DecidableEq, Repr

/-- One item of `stkCallback.CallbackMetadata.Item`. -/
structure MetaItem where
  name : String
  value : JVal
  deriving DecidableEq, Repr

/-- `stkCallback.CallbackMetadata` (whose `Item` may be absent). -/
structure CallbackMetadata where
  item : Option (List MetaItem)
  deriving DecidableEq, Repr

/-- `req.body.Body.stkCallback` of an M-Pesa callback. -/
structure StkCallback where
  checkoutRequestID : String
  resultCode : Int
  resultDesc : String
  callbackMetadata : Option CallbackMetadata
  deriving DecidableEq, Repr

/-- An M-Pesa callback request body; `stkCallback = none` models a body
where `Body?.stkCallback` is absent. -/
structure CallbackData where
  stkCallback : Option StkCallback
  deriving DecidableEq, Repr

/-- The acknowledgment object the M-Pesa callback route sends back. -/
structure MpesaAck where
  resultCode : Int
  resultDesc : String
  deriving DecidableEq, Repr

/-- The ack `{ResultCode: 0, ResultDesc: "Success"}` sent on every path
of `/mpesa-callback`. -/
def successAck : MpesaAck := ⟨0, "Success"⟩

/-- One pass of the `callbackMetadata.Item.forEach` loop body: copy the
item's `Value` into the field selected by its `Name`. -/
def applyMetaItem (p : MpesaPayment) (it : MetaItem) : MpesaPayment :=
  let p1 := if it.name = "Amount" then { p with amount := it.value } else p
  let p2 := if it.name = "MpesaReceiptNumber" then { p1 with mpesaReceiptNumber := some it.value } else p1
  let p3 := if it.name = "TransactionDate" then { p2 with transactionDate := some it.value } else p2
  if it.name = "PhoneNumber" then { p3 with phone := it.value } else p3

/-- The whole `forEach` over the metadata items, in order. -/
def applyMetadata (p : MpesaPayment) (items : List MetaItem) : MpesaPayment :=
  items.foldl applyMetaItem p

/-- The success branch (`resultCode === 0`) of the callback handler:
mark the record `success`, stamp `completedAt`, and run the metadata
loop when `CallbackMetadata` and its `Item` are both present. -/
def mpesaSuccessUpdate (payment : MpesaPayment) (cb : StkCallback) (now : Nat) :
    MpesaPayment :=
  let p := { payment with status := "success", completedAt := some now }
  match cb.callbackMetadata with
  | some cm =>
    match cm.item with
    | some items => applyMetadata p items
    | none => p
  | none => p

/-- The failure branch (`resultCode !== 0`) of the callback handler:
mark the record `failed`, keep the provider message in `error`, stamp
`completedAt`. -/
def mpesaFailureUpdate (payment : MpesaPayment) (cb : StkCallback) (now : Nat) :
    MpesaPayment :=
  { payment with status := "failed", error := some cb.resultDesc, completedAt := some now }

/-- The `POST /mpesa-callback` handler: look up the record by
`CheckoutRequestID`, overwrite its status from the result code, and
always answer with the success ack. -/
def mpesaCallback (st : ServerState) (body : CallbackData) (now : Nat) :
    ServerState × MpesaAck :=
  match body.stkCallback with
  | none => (st, successAck)
  | some cb =>
    match st.paymentStatus.get? cb.checkoutRequestID with
    | none => (st, successAck)
    | some payment =>
      let payment' :=
        if cb.resultCode = 0 then mpesaSuccessUpdate payment cb now
        else mpesaFailureUpdate payment cb now
      ({ st with paymentStatus := st.paymentStatus.set cb.checkoutRequestID payment' },
       successAck)

/-- Fields of the `req.body` of `/initiate-payment` that reach the
stored record. -/
structure InitiateRequest where
  phone : JVal
  amount : JVal
  accountReference : String
  eventId : Option String
  userId : Option String
  deriving DecidableEq, Repr

/-- The record `/initiate-payment` builds once the STK response carries
a `CheckoutRequestID`. -/
def mkMpesaPayment (req : InitiateRequest) (stk : StkResponseData) (cid : String)
    (now : Nat) : MpesaPayment :=
  { checkoutRequestID := cid
    merchantRequestID := stk.merchantRequestID
    phone := req.phone
    amount := req.amount
    accountReference := req.accountReference
    eventId := jsOr req.eventId ""
    userId := jsOr req.userId ""
    status := "pending"
    initiatedAt := now
    mpesaResponse := stk }

/-- The storage step of `POST /initiate-payment`: if the STK response
carries a `CheckoutRequestID`, `paymentStatus.set` the new record under
it (a plain `Map.set`, with no duplicate check). -/
def registerMpesaInitiation (st : ServerState) (req : InitiateRequest)
    (stk : StkResponseData) (now : Nat) : ServerState :=
  match stk.checkoutRequestID with
  | none => st
  | some cid =>
    { st with paymentStatus := st.paymentStatus.set cid (mkMpesaPayment req stk cid now) }

/-- Outcome of the outbound `getPaypalOrder` network call in the PayPal
status route: the order details, or a thrown error. -/
inductive PullResult where
  | ok (order : PaypalOrder)
  | err
  deriving DecidableEq, Repr

/-- The JSON answer of `GET /paypal-payment-status/:orderId` as far as
the claims are concerned (HTTP status, `success`, `status`). -/
structure StatusResponse where
  httpStatus : Nat
  success : Bool
  status : String
  deriving DecidableEq, Repr

/-- The `GET /paypal-payment-status/:orderId` handler.  `pull` is what
the `getPaypalOrder` call would produce; the third component counts how
many such outbound calls the handler performed (0 or 1). -/
def paypalStatusQuery (st : ServerState) (orderId : String) (pull : PullResult)
    (now : Nat) : ServerState × StatusResponse × Nat :=
  match st.paypalPayments.get? orderId with
  | none => (st, ⟨404, false, "not_found"⟩, 0)
  | some payment =>
    let step : MpesaBackend.PaypalPayment × ServerState × Nat :=
      if payment.status ≠ "completed" then
        match pull with
        | .ok od =>
          if od.status = "COMPLETED" ∨ od.status = "APPROVED" then
            let p := { payment with status := "completed", captured_at := some now,
                                    paypalResponse := od }
            (p, { st with paypalPayments := st.paypalPayments.set orderId p }, 1)
          else if od.status = "FAILED" ∨ od.status = "CANCELLED" then
            let p := { payment with status := "failed", failed_at := some now }
            (p, { st with paypalPayments := st.paypalPayments.set orderId p }, 1)
          else (payment, st, 1)
        | .err => (payment, st, 1)
      else (payment, st, 0)
    (step.2.1, ⟨200, step.1.status == "completed", step.1.status⟩, step.2.2)

/-- The JSON answer of `GET /payment-status/:transactionId`. -/
structure UnifiedResponse where
  httpStatus : Nat
  kind : String
  status : String
  success : Bool
  message : String
  deriving DecidableEq, Repr

/-- The `GET /payment-status/:transactionId` handler (a pure read of
both stores): M-Pesa records are mapped through the status `switch`,
PayPal records are found by `orderId` or `transactionId` among the map
values and returned with their stored status verbatim, and a miss in
both stores yields a 404 `not_found`. -/
def paymentStatusQuery (st : ServerState) (transactionId : String) : UnifiedResponse :=
  match st.paymentStatus.get? transactionId with
  | some payment =>
    if payment.status = "success" then
      ⟨200, "mpesa", "completed", true, "M-Pesa payment completed successfully"⟩
    else if payment.status = "failed" then
      ⟨200, "mpesa", "failed", false, jsOr payment.error "M-Pesa payment failed or was cancelled"⟩
    else
      ⟨200, "mpesa", "pending", false, "M-Pesa payment is pending"⟩
  | none =>
    match st.paypalPayments.values.find?
        (fun p => p.orderId == transactionId || p.transactionId == transactionId) with
    | some pp =>
      ⟨200, "paypal", pp.status, pp.status == "completed", "PayPal payment is " ++ pp.status⟩
    | none => ⟨404, "unknown", "not_found", false, "Transaction not found"⟩

/-- Outcome of the outbound `capturePaypalPayment` call: the capture
response, or a thrown error. -/
inductive CaptureResult where
  | ok (result : PaypalOrder)
  | err
  deriving DecidableEq, Repr

/-- The JSON answer of `POST /capture-paypal-order` as far as the
claims are concerned. -/
structure CaptureResponse where
  httpStatus : Nat
  success : Bool
  status : Option String
  deriving DecidableEq, Repr

/-- The `POST /capture-paypal-order` handler.  `cap` is what the
outbound `capturePaypalPayment` call would produce; the third component
counts how many outbound calls were made.  An unknown `orderId` is
rejected with a 404 before any outbound call. -/
def captureOrder (st : ServerState) (orderId : String) (cap : CaptureResult)
    (now : Nat) : ServerState × CaptureResponse × Nat :=
  match st.paypalPayments.get? orderId with
  | none => (st, ⟨404, false, none⟩, 0)
  | some payment =>
    match cap with
    | .err => (st, ⟨500, false, none⟩, 1)
    | .ok result =>
      let newStatus := if result.status = "COMPLETED" then "completed" else "captured"
      let p := { payment with status := newStatus, captured_at := some now,
                              captureResponse := some result }
      ({ st with paypalPayments := st.paypalPayments.set orderId p },
       ⟨200, true, some newStatus⟩, 1)

/-- `event.resource.supplementary_data.related_ids` of a PayPal
webhook event. -/
structure RelatedIds where
  order_id : Option String
  deriving DecidableEq, Repr

/-- `event.resource.supplementary_data`. -/
structure SupplementaryData where
  related_ids : Option RelatedIds
  deriving DecidableEq, Repr

/-- `event.resource` of a PayPal webhook event.  Leaf fields read
without further member access may be `undefined` (`Option`); reading a
member of an `undefined` object throws. -/
structure WebhookResource where
  id : Option String
  supplementary_data : Option SupplementaryData
  deriving DecidableEq, Repr

/-- A PayPal webhook event body. -/
structure WebhookEvent where
  event_type : String
  resource : Option WebhookResource
  summary : Option String
  deriving DecidableEq, Repr

/-- The response of `POST /paypal-webhook`: HTTP status and body text. -/
structure WebhookResponse where
  httpStatus : Nat
  body : String
  deriving DecidableEq, Repr

/-- A JavaScript member access on a possibly-`undefined` object:
throws (`Except.error`) when the object is `undefined`. -/
def jsGet {α : Type} : Option α → Except Unit α
  | some a => .ok a
  | none => .error ()

/-- Mutate the PayPal record under `orderId` when the key is a defined
string present in the store (`paypalPayments.has(orderId)`), else leave
the state alone. -/
def updateIfKnown (st : ServerState) (orderId : Option String)
    (f : PaypalPayment → PaypalPayment) : ServerState :=
  match orderId with
  | none => st
  | some oid =>
    match st.paypalPayments.get? oid with
    | none => st
    | some p => { st with paypalPayments := st.paypalPayments.set oid (f p) }

/-- The `try` block of `POST /paypal-webhook`: dispatch on
`event_type`, extract the order id (member accesses on `undefined`
throw), and update the matching record if any. -/
def processPaypalWebhook (st : ServerState) (event : WebhookEvent) (now : Nat) :
    Except Unit ServerState :=
  if event.event_type = "CHECKOUT.ORDER.APPROVED" then do
    let r ← jsGet event.resource
    pure (updateIfKnown st r.id fun p =>
      { p with status := "approved", approved_at := some now })
  else if event.event_type = "PAYMENT.CAPTURE.COMPLETED" then do
    let r ← jsGet event.resource
    let sd ← jsGet r.supplementary_data
    let ri ← jsGet sd.related_ids
    pure (updateIfKnown st ri.order_id fun p =>
      { p with status := "completed", captured_at := some now, captureId := r.id })
  else if event.event_type = "PAYMENT.CAPTURE.DENIED" ∨
          event.event_type = "PAYMENT.CAPTURE.FAILED" then do
    let r ← jsGet event.resource
    let sd ← jsGet r.supplementary_data
    let ri ← jsGet sd.related_ids
    pure (updateIfKnown st ri.order_id fun p =>
      { p with status := "failed", failed_at := some now,
               error := some (jsOr event.summary "Payment failed") })
  else pure st

/-- The whole `POST /paypal-webhook` handler: `200 OK` when the try
block completes, `500 Error` when it throws (the `catch` branch). -/
def paypalWebhook (st : ServerState) (event : WebhookEvent) (now : Nat) :
    ServerState × WebhookResponse :=
  match processPaypalWebhook st event now with
  | .ok st' => (st', ⟨200, "OK"⟩)
  | .error _ => (st, ⟨500, "Error"⟩)

/-- The statuses from which the M-Pesa state machine of the spec admits
no further transition, in the vocabulary `server.js` stores. -/
def mpesaTerminalStatuses : List String := ["success", "failed"]

/-- The terminal statuses in the PayPal store's vocabulary. -/
def paypalTerminalStatuses : List String := ["completed", "failed"]

/-- The value of the last metadata item named `field`, if any — the
net effect of the sequential `forEach` assignments on one field. -/
def lastNamed (field : String) (items : List MetaItem) : Option JVal :=
  (items.filterMap fun it => if it.name = field then some it.value else none).getLast?

/-- The metadata items the handler actually iterates over: empty when
`CallbackMetadata` or its `Item` list is absent. -/
def cbItems (cb : StkCallback) : List MetaItem :=
  match cb.callbackMetadata with
  | some cm => cm.item.getD []
  | none => []

/-! Concrete fixtures used by counterexamples and witnesses. -/

/-- Server state with both maps empty. -/
def emptyState : ServerState := ⟨JsMap.empty, JsMap.empty⟩

/-- An M-Pesa record already in the terminal status `success`. -/
def succeededMpesaPayment : MpesaPayment :=
  { checkoutRequestID := "CRQ1", merchantRequestID := some "MRQ1",
    phone := .str "254700000000", amount := .num 500, accountReference := "acc1",
    eventId := "ev1", userId := "u1", status := "success", initiatedAt := 0,
    mpesaResponse := ⟨some "CRQ1", some "MRQ1"⟩, completedAt := some 1,
    mpesaReceiptNumber := some (.str "R001") }

/-- A store holding only `succeededMpesaPayment`. -/
def stWithSucceeded : ServerState :=
  ⟨JsMap.empty.set "CRQ1" succeededMpesaPayment, JsMap.empty⟩

/-- The `stkCallback` of a later conflicting callback for the same
`CheckoutRequestID`, reporting user cancellation (result code 1032). -/
def cancelStk : StkCallback := ⟨"CRQ1", 1032, "Request cancelled by user", none⟩

/-- The request body carrying `cancelStk`. -/
def cancelCallback : CallbackData := ⟨some cancelStk⟩

/-- A pending M-Pesa record awaiting its callback. -/
def pendingMpesaPayment : MpesaPayment :=
  { checkoutRequestID := "CRQ2", merchantRequestID := some "MRQ2",
    phone := .str "254711111111", amount := .num 500, accountReference := "acc2",
    eventId := "ev2", userId := "u2", status := "pending", initiatedAt := 0,
    mpesaResponse := ⟨some "CRQ2", some "MRQ2"⟩ }

/-- A store holding only `pendingMpesaPayment`. -/
def stWithPending : ServerState :=
  ⟨JsMap.empty.set "CRQ2" pendingMpesaPayment, JsMap.empty⟩

/-- The `stkCallback` of a success callback for `CRQ2` with receipt
metadata and one provider description. -/
def successStk : StkCallback :=
  ⟨"CRQ2", 0, "The service request is processed successfully.",
    some ⟨some [⟨"Amount", .num 500⟩, ⟨"MpesaReceiptNumber", .str "R123"⟩]⟩⟩

/-- The request body carrying `successStk`. -/
def successCallbackA : CallbackData := ⟨some successStk⟩

/-- The same callback with a different raw provider description. -/
def successCallbackB : CallbackData :=
  ⟨some ⟨"CRQ2", 0, "Processed OK",
    some ⟨some [⟨"Amount", .num 500⟩, ⟨"MpesaReceiptNumber", .str "R123"⟩]⟩⟩⟩

/-- An existing initiation record under `CheckoutRequestID` `CRQ9`. -/
def oldMpesaPayment : MpesaPayment :=
  { checkoutRequestID := "CRQ9", merchantRequestID := some "MRQ9",
    phone := .str "254722222222", amount := .num 100, accountReference := "old-ref",
    eventId := "ev9", userId := "u9", status := "pending", initiatedAt := 3,
    mpesaResponse := ⟨some "CRQ9", some "MRQ9"⟩ }

/-- A store holding only `oldMpesaPayment`. -/
def stWithOld : ServerState :=
  ⟨JsMap.empty.set "CRQ9" oldMpesaPayment, JsMap.empty⟩

/-- A second initiation request whose STK response reuses `CRQ9`. -/
def dupRequest : InitiateRequest :=
  ⟨.str "254733333333", .num 900, "new-ref", some "ev10", some "u10"⟩

/-- The STK response of the duplicate initiation. -/
def dupStk : StkResponseData := ⟨some "CRQ9", some "MRQ10"⟩

/-- A PayPal record already in the terminal status `failed`. -/
def failedPaypalPayment : PaypalPayment :=
  { orderId := "ORD1", transactionId := "PPev_u_1", amount := "500", usdAmount := "3.85",
    eventId := "ev", userId := "u", username := "name", email := "mail",
    status := "failed", created_at := 0, paypalResponse := ⟨"ORD1", "CREATED"⟩,
    failed_at := some 2 }

/-- A store holding only `failedPaypalPayment`. -/
def stWithFailed : ServerState :=
  ⟨JsMap.empty, JsMap.empty.set "ORD1" failedPaypalPayment⟩

/-- A freshly created PayPal record (status `created`). -/
def createdPaypalPayment : PaypalPayment :=
  { orderId := "ORD2", transactionId := "PPev_u_2", amount := "650", usdAmount := "5.00",
    eventId := "ev", userId := "u", username := "name", email := "mail",
    status := "created", created_at := 0, paypalResponse := ⟨"ORD2", "CREATED"⟩ }

/-- A store holding only `createdPaypalPayment`. -/
def stWithCreated : ServerState :=
  ⟨JsMap.empty, JsMap.empty.set "ORD2" createdPaypalPayment⟩

/-- A capture-completed webhook event whose `resource` lacks
`supplementary_data` — reading `.related_ids` on it throws. -/
def badCaptureEvent : WebhookEvent :=
  ⟨"PAYMENT.CAPTURE.COMPLETED", some ⟨some "CAP1", none⟩, none⟩

/-- The `stkCallback` of an orphan M-Pesa callback: no record under
`CRQ404` exists anywhere. -/
def orphanStk : StkCallback :=
  ⟨"CRQ404", 0, "The service request is processed successfully.", none⟩

/-- The request body carrying `orphanStk`. -/
def orphanCallback : CallbackData := ⟨some orphanStk⟩

/-- A callback body with no `Body.stkCallback`. -/
def emptyCallbackBody : CallbackData := ⟨none⟩

/-! Store lemmas. -/

theorem lookupEntries_setEntries_self {β : Type} (k : String) (v : β)
    (l : List (String × β)) : lookupEntries k (setEntries k v l) = some v := by
  induction l with
  | nil => simp [setEntries, lookupEntries]
  | cons hd tl ih =>
    obtain ⟨k', v'⟩ := hd
    by_cases h : k' = k
    · simp [setEntries, h, lookupEntries]
    · simp [setEntries, h, lookupEntries, ih]

theorem JsMap.get?_set_self {β : Type} (m : JsMap β) (k : String) (v : β) :
    (m.set k v).get? k = some v :=
  lookupEntries_setEntries_self k v m.entries

/-! Metadata-loop lemmas: the `forEach` body only ever writes the four
payload fields, and for each field the last matching item wins. -/

theorem applyMetaItem_status (p : MpesaPayment) (it : MetaItem) :
    (applyMetaItem p it).status = p.status := by
  by_cases h1 : it.name = "Amount" <;> by_cases h2 : it.name = "MpesaReceiptNumber" <;>
    by_cases h3 : it.name = "TransactionDate" <;> by_cases h4 : it.name = "PhoneNumber" <;>
    simp [applyMetaItem, h1, h2, h3, h4]

theorem applyMetaItem_error (p : MpesaPayment) (it : MetaItem) :
    (applyMetaItem p it).error = p.error := by
  by_cases h1 : it.name = "Amount" <;> by_cases h2 : it.name = "MpesaReceiptNumber" <;>
    by_cases h3 : it.name = "TransactionDate" <;> by_cases h4 : it.name = "PhoneNumber" <;>
    simp [applyMetaItem, h1, h2, h3, h4]

theorem applyMetaItem_completedAt (p : MpesaPayment) (it : MetaItem) :
    (applyMetaItem p it).completedAt = p.completedAt := by
  by_cases h1 : it.name = "Amount" <;> by_cases h2 : it.name = "MpesaReceiptNumber" <;>
    by_cases h3 : it.name = "TransactionDate" <;> by_cases h4 : it.name = "PhoneNumber" <;>
    simp [applyMetaItem, h1, h2, h3, h4]

theorem applyMetaItem_amount (p : MpesaPayment) (it : MetaItem) :
    (applyMetaItem p it).amount = if it.name = "Amount" then it.value else p.amount := by
  by_cases h1 : it.name = "Amount" <;> by_cases h2 : it.name = "MpesaReceiptNumber" <;>
    by_cases h3 : it.name = "TransactionDate" <;> by_cases h4 : it.name = "PhoneNumber" <;>
    simp [applyMetaItem, h1, h2, h3, h4]

theorem applyMetaItem_receipt (p : MpesaPayment) (it : MetaItem) :
    (applyMetaItem p it).mpesaReceiptNumber =
      if it.name = "MpesaReceiptNumber" then some it.value else p.mpesaReceiptNumber := by
  by_cases h1 : it.name = "Amount" <;> by_cases h2 : it.name = "MpesaReceiptNumber" <;>
    by_cases h3 : it.name = "TransactionDate" <;> by_cases h4 : it.name = "PhoneNumber" <;>
    simp [applyMetaItem, h1, h2, h3, h4]

theorem applyMetadata_status (p : MpesaPayment) (items : List MetaItem) :
    (applyMetadata p items).status = p.status := by
  induction items generalizing p with
  | nil => rfl
  | cons it rest ih =>
    show (applyMetadata (applyMetaItem p it) rest).status = p.status
    rw [ih, applyMetaItem_status]

theorem applyMetadata_error (p : MpesaPayment) (items : List MetaItem) :
    (applyMetadata p items).error = p.error := by
  induction items generalizing p with
  | nil => rfl
  | cons it rest ih =>
    show (applyMetadata (applyMetaItem p it) rest).error = p.error
    rw [ih, applyMetaItem_error]

theorem applyMetadata_completedAt (p : MpesaPayment) (items : List MetaItem) :
    (applyMetadata p items).completedAt = p.completedAt := by
  induction items generalizing p with
  | nil => rfl
  | cons it rest ih =>
    show (applyMetadata (applyMetaItem p it) rest).completedAt = p.completedAt
    rw [ih, applyMetaItem_completedAt]

theorem applyMetadata_append_singleton (p : MpesaPayment) (l : List MetaItem)
    (it : MetaItem) :
    applyMetadata p (l ++ [it]) = applyMetaItem (applyMetadata p l) it := by
  simp [applyMetadata, List.foldl_append]

theorem applyMetadata_amount (p : MpesaPayment) (items : List MetaItem) :
    (applyMetadata p items).amount = (lastNamed "Amount" items).getD p.amount := by
  induction items using List.reverseRecOn with
  | nil => rfl
  | append_singleton l it ih =>
    rw [applyMetadata_append_singleton, applyMetaItem_amount]
    by_cases h : it.name = "Amount"
    · simp [h, lastNamed, List.filterMap_append, List.getLast?_concat]
    · simp only [h, if_false, ih, lastNamed, List.filterMap_append]
      simp [h]

theorem applyMetadata_receipt (p : MpesaPayment) (items : List MetaItem) :
    (applyMetadata p items).mpesaReceiptNumber =
      ((lastNamed "MpesaReceiptNumber" items).map some).getD p.mpesaReceiptNumber := by
  induction items using List.reverseRecOn with
  | nil => rfl
  | append_singleton l it ih =>
    rw [applyMetadata_append_singleton, applyMetaItem_receipt]
    by_cases h : it.name = "MpesaReceiptNumber"
    · simp [h, lastNamed, List.filterMap_append, List.getLast?_concat]
    · simp only [h, if_false, ih, lastNamed, List.filterMap_append]
      simp [h]

/-! Success-branch lemmas. -/

theorem mpesaSuccessUpdate_eq (payment : MpesaPayment) (cb : StkCallback) (now : Nat) :
    mpesaSuccessUpdate payment cb now =
      applyMetadata { payment with status := "success", completedAt := some now }
        (cbItems cb) := by
  cases hcm : cb.callbackMetadata with
  | none => simp [mpesaSuccessUpdate, cbItems, hcm, applyMetadata]
  | some cm =>
    cases hit : cm.item with
    | none => simp [mpesaSuccessUpdate, cbItems, hcm, hit, applyMetadata]
    | some items => simp [mpesaSuccessUpdate, cbItems, hcm, hit]

theorem mpesaSuccessUpdate_status (payment : MpesaPayment) (cb : StkCallback)
    (now : Nat) : (mpesaSuccessUpdate payment cb now).status = "success" := by
  rw [mpesaSuccessUpdate_eq, applyMetadata_status]

theorem mpesaSuccessUpdate_completedAt (payment : MpesaPayment) (cb : StkCallback)
    (now : Nat) : (mpesaSuccessUpdate payment cb now).completedAt = some now := by
  rw [mpesaSuccessUpdate_eq, applyMetadata_completedAt]

theorem mpesaSuccessUpdate_error (payment : MpesaPayment) (cb : StkCallback)
    (now : Nat) : (mpesaSuccessUpdate payment cb now).error = payment.error := by
  rw [mpesaSuccessUpdate_eq, applyMetadata_error]

theorem mpesaSuccessUpdate_amount (payment : MpesaPayment) (cb : StkCallback)
    (now : Nat) : (mpesaSuccessUpdate payment cb now).amount =
      (lastNamed "Amount" (cbItems cb)).getD payment.amount := by
  rw [mpesaSuccessUpdate_eq, applyMetadata_amount]

theorem mpesaSuccessUpdate_receipt (payment : MpesaPayment) (cb : StkCallback)
    (now : Nat) : (mpesaSuccessUpdate payment cb now).mpesaReceiptNumber =
      ((lastNamed "MpesaReceiptNumber" (cbItems cb)).map some).getD
        payment.mpesaReceiptNumber := by
  rw [mpesaSuccessUpdate_eq, applyMetadata_receipt]

/-! Claim theorems. -/

/-- Claim C1, counterexample: a record already in the terminal status
`success` does not stay there — a later cancellation callback for the
same `CheckoutRequestID` overwrites the stored status with `failed`, a
second terminal transition.  The callback handler has no
already-terminal guard. -/
theorem mpesa_terminal_status_regression :
    succeededMpesaPayment.status ∈ mpesaTerminalStatuses ∧
    stWithSucceeded.paymentStatus.get? "CRQ1" = some succeededMpesaPayment ∧
    ((mpesaCallback stWithSucceeded cancelCallback 9).1.paymentStatus.get? "CRQ1").map
        MpesaPayment.status = some "failed" := by
  refine ⟨by decide, by decide, by decide⟩

/-- Claim C1 (amended): the stored status after a callback for a known
record is determined solely by that callback's result code — `success`
when it is 0, `failed` otherwise — regardless of the prior stored
status.  There is no first-terminal-write-wins guard: every delivered
callback performs a (possibly repeated or conflicting) terminal
transition, so the last write wins. -/
theorem mpesa_callback_overwrites_status (st : ServerState) (body : CallbackData)
    (cb : StkCallback) (payment : MpesaPayment) (now : Nat)
    (hb : body.stkCallback = some cb)
    (hp : st.paymentStatus.get? cb.checkoutRequestID = some payment) :
    ((mpesaCallback st body now).1.paymentStatus.get? cb.checkoutRequestID).map
        MpesaPayment.status
      = some (if cb.resultCode = 0 then "success" else "failed") := by
  simp only [mpesaCallback, hb, hp]
  rw [JsMap.get?_set_self]
  by_cases hrc : cb.resultCode = 0
  · simp [hrc, mpesaSuccessUpdate_status]
  · simp [hrc, mpesaFailureUpdate]

/-- Witness for the amended claim C1, at the concrete regression
input. -/
theorem mpesa_callback_overwrites_status_witness :
    ((mpesaCallback stWithSucceeded cancelCallback 9).1.paymentStatus.get?
        cancelStk.checkoutRequestID).map MpesaPayment.status
      = some (if cancelStk.resultCode = 0 then "success" else "failed") :=
  mpesa_callback_overwrites_status stWithSucceeded cancelCallback cancelStk
    succeededMpesaPayment 9 rfl rfl

/-- Claim C2: a callback whose `CheckoutRequestID` matches no stored
record creates nothing, mutates nothing, and still yields the success
acknowledgment to the provider. -/
theorem orphan_callback_dropped (st : ServerState) (body : CallbackData)
    (cb : StkCallback) (now : Nat)
    (hb : body.stkCallback = some cb)
    (ho : st.paymentStatus.get? cb.checkoutRequestID = none) :
    mpesaCallback st body now = (st, successAck) := by
  simp [mpesaCallback, hb, ho]

/-- Witness for claim C2: an orphan callback against the empty store. -/
theorem orphan_callback_dropped_witness :
    mpesaCallback emptyState orphanCallback 4 = (emptyState, successAck) :=
  orphan_callback_dropped emptyState orphanCallback orphanStk 4 rfl rfl

/-- Claim C9: an M-Pesa callback request whose body lacks
`Body.stkCallback` leaves both stores untouched and still answers
`{ResultCode: 0, ResultDesc: "Success"}`. -/
theorem missing_stk_callback_noop (st : ServerState) (body : CallbackData) (now : Nat)
    (h : body.stkCallback = none) :
    (mpesaCallback st body now).1.paymentStatus = st.paymentStatus ∧
    (mpesaCallback st body now).1.paypalPayments = st.paypalPayments ∧
    (mpesaCallback st body now).2 = successAck := by
  simp [mpesaCallback, h]

/-- Witness for claim C9, against a store that does hold a record. -/
theorem missing_stk_callback_noop_witness :
    (mpesaCallback stWithPending emptyCallbackBody 6).1.paymentStatus
        = stWithPending.paymentStatus ∧
    (mpesaCallback stWithPending emptyCallbackBody 6).1.paypalPayments
        = stWithPending.paypalPayments ∧
    (mpesaCallback stWithPending emptyCallbackBody 6).2 = successAck :=
  missing_stk_callback_noop stWithPending emptyCallbackBody 6 rfl

/-- Claim C10: capturing an `orderId` absent from the PayPal store is
rejected with a 404 before the outbound capture call (zero outbound
calls), and the state is returned unchanged. -/
theorem capture_unknown_order_rejected (st : ServerState) (orderId : String)
    (cap : CaptureResult) (now : Nat)
    (h : st.paypalPayments.get? orderId = none) :
    captureOrder st orderId cap now = (st, ⟨404, false, none⟩, 0) := by
  simp [captureOrder, h]

/-- Witness for claim C10: an unknown order id against a nonempty
M-Pesa store and empty PayPal store. -/
theorem capture_unknown_order_rejected_witness :
    captureOrder stWithPending "NOPE" (.ok ⟨"NOPE", "COMPLETED"⟩) 8
      = (stWithPending, ⟨404, false, none⟩, 0) :=
  capture_unknown_order_rejected stWithPending "NOPE" (.ok ⟨"NOPE", "COMPLETED"⟩) 8 rfl

/-- Claim C3, counterexample: a PayPal capture-completed webhook whose
`resource` lacks `supplementary_data` makes the handler throw, and the
provider receives `500 Error` instead of a success acknowledgment. -/
theorem paypal_webhook_error_response :
    paypalWebhook emptyState badCaptureEvent 3 = (emptyState, ⟨500, "Error"⟩) ∧
    (⟨500, "Error"⟩ : WebhookResponse) ≠ ⟨200, "OK"⟩ :=
  ⟨rfl, by decide⟩

/-- Claim C3 (amended): the M-Pesa callback endpoint answers the
success acknowledgment on every path, but the PayPal webhook endpoint
answers `200 OK` exactly when its processing does not throw; when it
throws, the provider gets `500 Error`. -/
theorem callback_ack_semantics (st st2 : ServerState) (body : CallbackData)
    (event : WebhookEvent) (now now2 : Nat) :
    (mpesaCallback st body now).2 = successAck ∧
    ((paypalWebhook st2 event now2).2 = ⟨200, "OK"⟩ ↔
      ∃ st', processPaypalWebhook st2 event now2 = Except.ok st') := by
  constructor
  · cases hb : body.stkCallback with
    | none => simp [mpesaCallback, hb]
    | some cb =>
      cases hp : st.paymentStatus.get? cb.checkoutRequestID with
      | none => simp [mpesaCallback, hb, hp]
      | some payment => simp [mpesaCallback, hb, hp]
  · cases hw : processPaypalWebhook st2 event now2 with
    | ok st' => simp [paypalWebhook, hw]
    | error e => simp [paypalWebhook, hw]

/-- Claim C4, counterexample: an initiation whose STK response reuses
the existing `CheckoutRequestID` `CRQ9` does not fail — the prior
record is silently replaced by the new one. -/
theorem duplicate_initiation_overwrites :
    stWithOld.paymentStatus.get? "CRQ9" = some oldMpesaPayment ∧
    (registerMpesaInitiation stWithOld dupRequest dupStk 5).paymentStatus.get? "CRQ9"
        = some (mkMpesaPayment dupRequest dupStk "CRQ9" 5) ∧
    mkMpesaPayment dupRequest dupStk "CRQ9" 5 ≠ oldMpesaPayment := by
  refine ⟨by decide, by decide, by decide⟩

/-- Claim C4 (amended): registering an initiation whose
`CheckoutRequestID` already exists in the store silently overwrites the
prior record with the freshly built one; no `DuplicateKey` failure
exists anywhere in the handler. -/
theorem register_initiation_overwrites (st : ServerState) (req : InitiateRequest)
    (stk : StkResponseData) (cid : String) (now : Nat)
    (hcid : stk.checkoutRequestID = some cid)
    (hdup : st.paymentStatus.hasKey cid = true) :
    (registerMpesaInitiation st req stk now).paymentStatus.get? cid
      = some (mkMpesaPayment req stk cid now) := by
  simp [registerMpesaInitiation, hcid, JsMap.get?_set_self]

/-- Witness for the amended claim C4, at the concrete duplicate
initiation. -/
theorem register_initiation_overwrites_witness :
    (registerMpesaInitiation stWithOld dupRequest dupStk 5).paymentStatus.get? "CRQ9"
      = some (mkMpesaPayment dupRequest dupStk "CRQ9" 5) :=
  register_initiation_overwrites stWithOld dupRequest dupStk "CRQ9" 5 rfl (by decide)

/-- Claim C5, counterexample: two distinct success callbacks that
differ only in the raw provider description produce identical stores,
so the raw provider payload is not retained anywhere in the record. -/
theorem raw_payload_not_stored :
    successCallbackA ≠ successCallbackB ∧
    mpesaCallback stWithPending successCallbackA 7
      = mpesaCallback stWithPending successCallbackB 7 := by
  refine ⟨by decide, by decide⟩

/-- Claim C5 (amended): a callback matching a known record with result
code 0 sets the status to `success`, stamps `completedAt`, and merges
the metadata's amount and receipt values into the record (the last item
of each name winning, the callback authoritative); a nonzero result
code sets the status to `failed` with the provider's message in
`error` and stamps `completedAt`.  No raw callback payload is stored. -/
theorem callback_merge_semantics (st : ServerState) (body : CallbackData)
    (cb : StkCallback) (payment : MpesaPayment) (now : Nat)
    (hb : body.stkCallback = some cb)
    (hp : st.paymentStatus.get? cb.checkoutRequestID = some payment) :
    ∃ p', (mpesaCallback st body now).1.paymentStatus.get? cb.checkoutRequestID
        = some p' ∧
      (if cb.resultCode = 0 then
        p'.status = "success" ∧ p'.completedAt = some now ∧
        p'.amount = (lastNamed "Amount" (cbItems cb)).getD payment.amount ∧
        p'.mpesaReceiptNumber
          = ((lastNamed "MpesaReceiptNumber" (cbItems cb)).map some).getD
              payment.mpesaReceiptNumber ∧
        p'.error = payment.error
      else
        p'.status = "failed" ∧ p'.error = some cb.resultDesc ∧
        p'.completedAt = some now ∧ p'.amount = payment.amount ∧
        p'.mpesaReceiptNumber = payment.mpesaReceiptNumber) := by
  by_cases hrc : cb.resultCode = 0
  · refine ⟨mpesaSuccessUpdate payment cb now, ?_, ?_⟩
    · simp [mpesaCallback, hb, hp, hrc, JsMap.get?_set_self]
    · simp [hrc, mpesaSuccessUpdate_status, mpesaSuccessUpdate_completedAt,
        mpesaSuccessUpdate_amount, mpesaSuccessUpdate_receipt, mpesaSuccessUpdate_error]
  · refine ⟨mpesaFailureUpdate payment cb now, ?_, ?_⟩
    · simp [mpesaCallback, hb, hp, hrc, JsMap.get?_set_self]
    · simp [hrc, mpesaFailureUpdate]

/-- Witness for the amended claim C5, at the concrete success
callback with metadata. -/
theorem callback_merge_semantics_witness :
    ∃ p', (mpesaCallback stWithPending successCallbackA 7).1.paymentStatus.get?
        successStk.checkoutRequestID = some p' ∧
      (if successStk.resultCode = 0 then
        p'.status = "success" ∧ p'.completedAt = some 7 ∧
        p'.amount = (lastNamed "Amount" (cbItems successStk)).getD
            pendingMpesaPayment.amount ∧
        p'.mpesaReceiptNumber
          = ((lastNamed "MpesaReceiptNumber" (cbItems successStk)).map some).getD
              pendingMpesaPayment.mpesaReceiptNumber ∧
        p'.error = pendingMpesaPayment.error
      else
        p'.status = "failed" ∧ p'.error = some successStk.resultDesc ∧
        p'.completedAt = some 7 ∧ p'.amount = pendingMpesaPayment.amount ∧
        p'.mpesaReceiptNumber = pendingMpesaPayment.mpesaReceiptNumber) :=
  callback_merge_semantics stWithPending successCallbackA successStk
    pendingMpesaPayment 7 rfl rfl

/-- Claim C6, counterexample: the unified status view returns the
PayPal store's status string verbatim — a matching record with status
`created` yields `created`, which is none of `pending`, `succeeded`,
`failed`. -/
theorem unified_status_not_canonical :
    stWithCreated.paypalPayments.hasKey "ORD2" = true ∧
    (paymentStatusQuery stWithCreated "ORD2").status = "created" ∧
    ("created" : String) ∉ (["pending", "succeeded", "failed"] : List String) := by
  refine ⟨by decide, by decide, by decide⟩

/-- Claim C6 (amended): the unified view maps a matching M-Pesa record
to one of `pending`, `completed`, `failed`; returns a matching PayPal
record's stored status verbatim; and, when neither store matches,
answers a 404 `not_found` response without touching the stores (the
handler is a pure read). -/
theorem unified_status_semantics (st : ServerState) (tid : String) :
    (∀ p, st.paymentStatus.get? tid = some p →
      (paymentStatusQuery st tid).status
        ∈ (["pending", "completed", "failed"] : List String)) ∧
    (st.paymentStatus.get? tid = none →
      st.paypalPayments.values.find?
          (fun q => q.orderId == tid || q.transactionId == tid) = none →
      paymentStatusQuery st tid
        = ⟨404, "unknown", "not_found", false, "Transaction not found"⟩) ∧
    (∀ q, st.paymentStatus.get? tid = none →
      st.paypalPayments.values.find?
          (fun r => r.orderId == tid || r.transactionId == tid) = some q →
      (paymentStatusQuery st tid).status = q.status) := by
  refine ⟨?_, ?_, ?_⟩
  · intro p hp
    by_cases h1 : p.status = "success" <;> by_cases h2 : p.status = "failed" <;>
      simp [paymentStatusQuery, hp, h1, h2]
  · intro hm hf
    simp [paymentStatusQuery, hm, hf]
  · intro q hm hf
    simp [paymentStatusQuery, hm, hf]

/-- Witness for the amended claim C6: the `created` PayPal record is
found by its `transactionId` and reported verbatim. -/
theorem unified_status_semantics_witness :
    (paymentStatusQuery stWithCreated "PPev_u_2").status = createdPaypalPayment.status :=
  (unified_status_semantics stWithCreated "PPev_u_2").2.2 createdPaypalPayment rfl rfl

/-- Claim C7, counterexample: a PayPal record in the terminal status
`failed` still triggers an active pull on a status poll (the handler
only checks for `completed`), so an already-terminal record does not
block the pull. -/
theorem terminal_failed_record_pulled :
    failedPaypalPayment.status ∈ paypalTerminalStatuses ∧
    stWithFailed.paypalPayments.get? "ORD1" = some failedPaypalPayment ∧
    (paypalStatusQuery stWithFailed "ORD1" (.ok ⟨"ORD1", "COMPLETED"⟩) 7).2.2 = 1 := by
  refine ⟨by decide, by decide, by decide⟩

/-- Claim C7 (amended): a status poll for a known PayPal record
performs an active pull exactly when the stored status differs from
`completed` — so a terminal `failed` record is pulled again — and never
performs more than one pull per call. -/
theorem paypal_pull_iff_not_completed (st : ServerState) (orderId : String)
    (payment : PaypalPayment) (pull : PullResult) (now : Nat)
    (h : st.paypalPayments.get? orderId = some payment) :
    (paypalStatusQuery st orderId pull now).2.2
        = (if payment.status = "completed" then 0 else 1) ∧
    (paypalStatusQuery st orderId pull now).2.2 ≤ 1 := by
  have hmain : (paypalStatusQuery st orderId pull now).2.2
      = (if payment.status = "completed" then 0 else 1) := by
    by_cases hc : payment.status = "completed"
    · simp [paypalStatusQuery, h, hc]
    · cases pull with
      | err => simp [paypalStatusQuery, h, hc]
      | ok od =>
        by_cases hA : od.status = "COMPLETED" <;> by_cases hB : od.status = "APPROVED" <;>
          by_cases hC : od.status = "FAILED" <;> by_cases hD : od.status = "CANCELLED" <;>
          simp [paypalStatusQuery, h, hc, hA, hB, hC, hD]
  refine ⟨hmain, ?_⟩
  rw [hmain]
  split <;> omega

/-- Witness for the amended claim C7, at the concrete terminal
`failed` record. -/
theorem paypal_pull_iff_not_completed_witness :
    (paypalStatusQuery stWithFailed "ORD1" (.ok ⟨"ORD1", "COMPLETED"⟩) 7).2.2
        = (if failedPaypalPayment.status = "completed" then 0 else 1) ∧
    (paypalStatusQuery stWithFailed "ORD1" (.ok ⟨"ORD1", "COMPLETED"⟩) 7).2.2 ≤ 1 :=
  paypal_pull_iff_not_completed stWithFailed "ORD1" failedPaypalPayment
    (.ok ⟨"ORD1", "COMPLETED"⟩) 7 rfl

/-- Claim C8: when the active pull to the provider throws, the status
poll swallows the error — the stores are unchanged and the client still
receives a 200 response carrying the last known stored status (exactly
one pull was attempted). -/
theorem pull_failure_swallowed (st : ServerState) (orderId : String)
    (payment : PaypalPayment) (now : Nat)
    (h : st.paypalPayments.get? orderId = some payment)
    (hnc : payment.status ≠ "completed") :
    paypalStatusQuery st orderId .err now = (st, ⟨200, false, payment.status⟩, 1) := by
  simp [paypalStatusQuery, h, hnc]

/-- Witness for claim C8, at the concrete `created` record. -/
theorem pull_failure_swallowed_witness :
    paypalStatusQuery stWithCreated "ORD2" .err 11
      = (stWithCreated, ⟨200, false, createdPaypalPayment.status⟩, 1) :=
  pull_failure_swallowed stWithCreated "ORD2" createdPaypalPayment 11 rfl (by decide)

end MpesaBackend
